import Mathlib

/-!
Shallow embedding of `src/compiler.py` of the WobbleScript repository: the
tokenizer (the ordered `TOKEN_TYPES` rule list, the `KEYWORDS` reclassification
and the `lexer` scan loop) and the recursive-descent parser (`parse` with its
nested helper functions), together with theorems settling the specification's
claims about them.

Conventions of the embedding:
  * source text is a `List Char`; Python's `\w` and `\s` classes are modelled
    for ASCII text, which covers every input appearing in the claims;
  * each regular expression of `TOKEN_TYPES` is translated into an anchored
    matching function returning the length of the match (`Option Nat`); the
    patterns involved are deterministic enough that greedy matching without
    backtracking is exact (sub-expressions with overlapping character sets do
    not occur, and failing optional groups cannot be rescued by backtracking);
  * `re` word boundaries need the character before the match, so matchers that
    use a leading boundary receive the previous character as an argument;
  * Python exceptions become an `Except` error value; the dynamic `TypeError`s
    that the parser can raise (calling `peek` with an argument although `peek`
    accepts none, and subscripting `None`) are modelled as distinguished
    error values.
-/

namespace WobbleScript

/-- A lexical token: the `(kind, lexeme)` pair the source lexer appends to its
token list. -/
abbrev Token := String × String

/-- Python's `\w` on ASCII text: letters, digits, underscore. -/
def isWordChar (c : Char) : Bool := c.isAlpha || c.isDigit || c = '_'

/-- Python's `\s` on ASCII text: space, tab, newline, carriage return,
vertical tab, form feed. -/
def isWsChar (c : Char) : Bool :=
  c = ' ' || c = '\t' || c = '\n' || c = '\r' || c = '\x0b' || c = '\x0c'

/-- The identifier start class `[a-zA-Z_]`. -/
def isIdentStart (c : Char) : Bool := c.isAlpha || c = '_'

/-- Length of the longest prefix of word characters (greedy `\w*`). -/
def wordRun : List Char → Nat
  | [] => 0
  | c :: rest => if isWordChar c then wordRun rest + 1 else 0

/-- Length of the longest whitespace prefix (greedy `\s*`). -/
def wsRun : List Char → Nat
  | [] => 0
  | c :: rest => if isWsChar c then wsRun rest + 1 else 0

/-- Length of the longest prefix of word-or-dot characters: the import rule's
greedy character class. -/
def wordDotRun : List Char → Nat
  | [] => 0
  | c :: rest => if isWordChar c || c = '.' then wordDotRun rest + 1 else 0

/-- Length of the longest prefix containing no double quote. -/
def noQuoteRun : List Char → Nat
  | [] => 0
  | c :: rest => if c = '"' then 0 else noQuoteRun rest + 1

/-- Length of the longest prefix containing no newline: a greedy dot-star in
a pattern without the DOTALL flag. -/
def lineRun : List Char → Nat
  | [] => 0
  | c :: rest => if c = '\n' then 0 else lineRun rest + 1

/-- Anchored literal match: does the first list occur verbatim at the head of
the second? -/
def litPre : List Char → List Char → Bool
  | [], _ => true
  | _ :: _, [] => false
  | a :: as, b :: bs => if a = b then litPre as bs else false

/-- The iterated dotted-name tail of the folder rule: zero or more
repetitions of a dot followed by a nonempty word run, greedily.  Returns the
number of characters consumed. -/
def dottedTail : List Char → Nat
  | '.' :: rest =>
    if wordRun rest = 0 then 0
    else 1 + wordRun rest + dottedTail (rest.drop (wordRun rest))
  | _ => 0
termination_by l => l.length
decreasing_by
  simp only [List.length_cons, List.length_drop]
  omega

/-- Rule `FOLDER`: keyword `folder`, whitespace, then a dotted name. -/
def matchFolder (l : List Char) : Option Nat :=
  if litPre "folder".data l then
    if wsRun (l.drop 6) = 0 then none
    else
      if wordRun (l.drop (6 + wsRun (l.drop 6))) = 0 then none
      else
        some (6 + wsRun (l.drop 6) + wordRun (l.drop (6 + wsRun (l.drop 6))) +
          dottedTail (l.drop (6 + wsRun (l.drop 6) +
            wordRun (l.drop (6 + wsRun (l.drop 6))))))
  else none

/-- Rule `CLASS`: keyword `class`, whitespace, then a word run. -/
def matchClass (l : List Char) : Option Nat :=
  if litPre "class".data l then
    if wsRun (l.drop 5) = 0 then none
    else
      if wordRun (l.drop (5 + wsRun (l.drop 5))) = 0 then none
      else some (5 + wsRun (l.drop 5) + wordRun (l.drop (5 + wsRun (l.drop 5))))
  else none

/-- Rule `FUNCTION`: keyword `function`, whitespace, then a word run. -/
def matchFunction (l : List Char) : Option Nat :=
  if litPre "function".data l then
    if wsRun (l.drop 8) = 0 then none
    else
      if wordRun (l.drop (8 + wsRun (l.drop 8))) = 0 then none
      else some (8 + wsRun (l.drop 8) + wordRun (l.drop (8 + wsRun (l.drop 8))))
  else none

/-- The optional arrow group of the variable rule: an arrow followed by a
nonempty word run, or nothing. -/
def arrowPart : List Char → Nat
  | '-' :: '>' :: rest => if wordRun rest = 0 then 0 else 2 + wordRun rest
  | _ => 0

/-- Whether the position after a word run satisfies a trailing word
boundary: the next character, if any, is not a word character. -/
def boundaryAfter : List Char → Bool
  | [] => true
  | c :: _ => !(isWordChar c)

/-- The initializer alternation of the variable rule: a quoted string without
inner quotes, the literal `true` or `false` delimited by word boundaries, or
an identifier-shaped word run.  The preceding character is `=` or whitespace,
so the leading word boundaries of the word branches always hold. -/
def varValue (l : List Char) : Option Nat :=
  match l with
  | '"' :: rest =>
    if (rest.drop (noQuoteRun rest)).head? = some '"' then some (noQuoteRun rest + 2)
    else none
  | _ =>
    if litPre "true".data l && boundaryAfter (l.drop 4) then some 4
    else if litPre "false".data l && boundaryAfter (l.drop 5) then some 5
    else
      match l with
      | c :: _ => if isIdentStart c then some (wordRun l) else none
      | [] => none

/-- The `\s*=\s*(initializer)` tail of the variable rule, anchored at the
head of `l` (the position just after the name and the optional arrow group):
the matched length, if it matches. -/
def eqValuePart (l : List Char) : Option Nat :=
  if (l.drop (wsRun l)).head? = some '=' then
    (varValue ((l.drop (wsRun l + 1)).drop (wsRun (l.drop (wsRun l + 1))))).map
      (fun v => wsRun l + 1 + wsRun (l.drop (wsRun l + 1)) + v)
  else none

/-- Rule `VARIABLE`: keyword `variable`, whitespace, name, optional arrow
annotation, `=` with optional surrounding whitespace, then an initializer. -/
def matchVariable (l : List Char) : Option Nat :=
  if litPre "variable".data l then
    if wsRun (l.drop 8) = 0 then none
    else
      if wordRun (l.drop (8 + wsRun (l.drop 8))) = 0 then none
      else
        (eqValuePart ((l.drop (8 + wsRun (l.drop 8))).drop
            (wordRun (l.drop (8 + wsRun (l.drop 8))) +
              arrowPart ((l.drop (8 + wsRun (l.drop 8))).drop
                (wordRun (l.drop (8 + wsRun (l.drop 8)))))))).map
          (fun k => 8 + wsRun (l.drop 8) + wordRun (l.drop (8 + wsRun (l.drop 8))) +
            arrowPart ((l.drop (8 + wsRun (l.drop 8))).drop
              (wordRun (l.drop (8 + wsRun (l.drop 8))))) + k)
  else none

/-- Rule `IF`: the bare literal `if`, with no word boundary. -/
def matchIf (l : List Char) : Option Nat :=
  if litPre "if".data l then some 2 else none

/-- Rule `NOT`: the bare literal `not`. -/
def matchNot (l : List Char) : Option Nat :=
  if litPre "not".data l then some 3 else none

/-- Rule `ELSE`: the literal `but if`, or the literal `otherwise`. -/
def matchElse (l : List Char) : Option Nat :=
  if litPre "but if".data l then some 6
  else if litPre "otherwise".data l then some 9
  else none

/-- Rule `IMPORT`: keyword `import`, whitespace, then a nonempty run of
word-or-dot characters. -/
def matchImport (l : List Char) : Option Nat :=
  if litPre "import".data l then
    if wsRun (l.drop 6) = 0 then none
    else
      if wordDotRun (l.drop (6 + wsRun (l.drop 6))) = 0 then none
      else some (6 + wsRun (l.drop 6) + wordDotRun (l.drop (6 + wsRun (l.drop 6))))
  else none

/-- Whether the character before the cursor allows a leading word boundary:
it is absent or not a word character.  (The boundary also needs a word
character at the cursor, which the identifier rule checks separately.) -/
def prevOk : Option Char → Bool
  | none => true
  | some p => !(isWordChar p)

/-- Rule `IDENTIFIER`: a word boundary, a character of `[a-zA-Z_]`, then a
greedy word run.  The leading boundary holds exactly when the previous
character is absent or not a word character; the trailing boundary always
holds at the end of a maximal word run. -/
def matchIdentifier (prev : Option Char) (l : List Char) : Option Nat :=
  match l with
  | c :: _ =>
    if isIdentStart c then
      if prevOk prev then some (wordRun l) else none
    else none
  | [] => none

/-- The content-and-closing-quote part of the string rule, after the opening
quote: repetitions of a non-quote non-backslash character or a backslash
followed by a non-newline character, then the closing quote.  Returns the
number of characters consumed, the closing quote included. -/
def strBody : List Char → Option Nat
  | [] => none
  | '"' :: _ => some 1
  | '\\' :: c :: rest =>
    if c = '\n' then none else (strBody rest).map (fun n => n + 2)
  | '\\' :: [] => none
  | _ :: rest => (strBody rest).map (fun n => n + 1)

/-- Rule `STRING`: a double-quoted, backslash-escapable string literal. -/
def matchString (l : List Char) : Option Nat :=
  match l with
  | '"' :: rest => (strBody rest).map (fun n => n + 1)
  | _ => none

/-- The lazy search for the closing `*/` of a block comment: the distance to
the first occurrence. -/
def starSearch : List Char → Option Nat
  | '*' :: '/' :: _ => some 0
  | _ :: rest => (starSearch rest).map (fun n => n + 1)
  | [] => none

/-- Rule `COMMENT`: a line comment running to the end of the line, or a block
comment closed by the first following `*/`. -/
def matchComment (l : List Char) : Option Nat :=
  match l with
  | '/' :: '/' :: rest => some (2 + lineRun rest)
  | '/' :: '*' :: rest => (starSearch rest).map (fun n => n + 4)
  | _ => none

/-- A single-character literal rule (the punctuation rules). -/
def matchChar (c : Char) : List Char → Option Nat
  | d :: _ => if d = c then some 1 else none
  | [] => none

/-- Rule `YEET`: the bare literal `yeet`. -/
def matchYeet (l : List Char) : Option Nat :=
  if litPre "yeet".data l then some 4 else none

/-- Rule `ARROW`: the literal arrow. -/
def matchArrow : List Char → Option Nat
  | '-' :: '>' :: _ => some 2
  | _ => none

/-- Rule `BOOLEAN`: the bare literal `true` or `false`, with no word
boundary. -/
def matchBoolean (l : List Char) : Option Nat :=
  if litPre "true".data l then some 4
  else if litPre "false".data l then some 5
  else none

/-- Tags for the entries of the source's ordered `TOKEN_TYPES` rule list. -/
inductive Rule where
  | folderR | classR | variableR | functionR | ifR | notR | elseR | importR
  | identifierR | stringR | commentR | lparenR | rparenR | lbraceR | rbraceR
  | semicolonR | dotR | yeetR | arrowR | booleanR
deriving DecidableEq

/-- The anchored matcher of each rule, given the character preceding the
cursor (for the identifier rule's leading word boundary) and the text from
the cursor on. -/
def matchRule : Rule → Option Char → List Char → Option Nat
  | .folderR, _, l => matchFolder l
  | .classR, _, l => matchClass l
  | .variableR, _, l => matchVariable l
  | .functionR, _, l => matchFunction l
  | .ifR, _, l => matchIf l
  | .notR, _, l => matchNot l
  | .elseR, _, l => matchElse l
  | .importR, _, l => matchImport l
  | .identifierR, prev, l => matchIdentifier prev l
  | .stringR, _, l => matchString l
  | .commentR, _, l => matchComment l
  | .lparenR, _, l => matchChar '(' l
  | .rparenR, _, l => matchChar ')' l
  | .lbraceR, _, l => matchChar '\x7b' l
  | .rbraceR, _, l => matchChar '\x7d' l
  | .semicolonR, _, l => matchChar ';' l
  | .dotR, _, l => matchChar '.' l
  | .yeetR, _, l => matchYeet l
  | .arrowR, _, l => matchArrow l
  | .booleanR, _, l => matchBoolean l

/-- The source's ordered `TOKEN_TYPES` list of `(kind, pattern)` rules. -/
def TOKEN_TYPES : List (String × Rule) :=
  [("FOLDER", .folderR), ("CLASS", .classR), ("VARIABLE", .variableR),
   ("FUNCTION", .functionR), ("IF", .ifR), ("NOT", .notR), ("ELSE", .elseR),
   ("IMPORT", .importR), ("IDENTIFIER", .identifierR), ("STRING", .stringR),
   ("COMMENT", .commentR), ("LPAREN", .lparenR), ("RPAREN", .rparenR),
   ("LBRACE", .lbraceR), ("RBRACE", .rbraceR), ("SEMICOLON", .semicolonR),
   ("DOT", .dotR), ("YEET", .yeetR), ("ARROW", .arrowR), ("BOOLEAN", .booleanR)]

/-- The source's `KEYWORDS` set. -/
def KEYWORDS : List String := ["if", "not", "but", "otherwise", "yeet", "import"]

/-- Scan a rule list in order and return the kind and match length of the
first rule that matches: the lexer's first-match-wins policy. -/
def firstMatchIn : List (String × Rule) → Option Char → List Char → Option (String × Nat)
  | [], _, _ => none
  | (kind, r) :: rest, prev, l =>
    match matchRule r prev l with
    | some n => some (kind, n)
    | none => firstMatchIn rest prev l

/-- The character just before the cursor, if any. -/
def prevOf (s : List Char) (pos : Nat) : Option Char :=
  if pos = 0 then none else s.get? (pos - 1)

/-- The first rule of `TOKEN_TYPES`, in declaration order, matching at the
cursor, with its match length. -/
def firstTokenAt (s : List Char) (pos : Nat) : Option (String × Nat) :=
  firstMatchIn TOKEN_TYPES (prevOf s pos) (s.drop pos)

/-- The keyword reclassification of lines 49-50 of the source: a bare
identifier whose lexeme is a reserved word becomes a token of that word's
own upper-cased kind. -/
def reclassify (kind : String) (value : String) : String :=
  if kind = "IDENTIFIER" && KEYWORDS.contains value then value.toUpper else kind

/-- An identifier-start character is a word character. -/
theorem isIdentStart_isWordChar (c : Char) (h : isIdentStart c = true) :
    isWordChar c = true := by
  simp only [isIdentStart, Bool.or_eq_true, decide_eq_true_eq] at h
  rcases h with h | h
  · simp [isWordChar, h]
  · subst h; decide

/-- A word run beginning with an identifier-start character is nonempty. -/
theorem wordRun_pos (c : Char) (rest : List Char) (h : isIdentStart c = true) :
    0 < wordRun (c :: rest) := by
  simp [wordRun, isIdentStart_isWordChar c h]

theorem matchFolder_pos (l : List Char) (n : Nat) (h : matchFolder l = some n) :
    0 < n := by
  simp only [matchFolder] at h
  split_ifs at h
  all_goals (try cases h); omega

theorem matchClass_pos (l : List Char) (n : Nat) (h : matchClass l = some n) :
    0 < n := by
  simp only [matchClass] at h
  split_ifs at h
  all_goals (try cases h); omega

theorem matchFunction_pos (l : List Char) (n : Nat) (h : matchFunction l = some n) :
    0 < n := by
  simp only [matchFunction] at h
  split_ifs at h
  all_goals (try cases h); omega

theorem matchVariable_pos (l : List Char) (n : Nat) (h : matchVariable l = some n) :
    0 < n := by
  simp only [matchVariable] at h
  split_ifs at h
  all_goals simp only [Option.map_eq_some'] at h
  all_goals obtain ⟨k, _, hk⟩ := h
  all_goals omega

theorem matchIf_pos (l : List Char) (n : Nat) (h : matchIf l = some n) : 0 < n := by
  simp only [matchIf] at h
  split_ifs at h
  all_goals (try cases h); omega

theorem matchNot_pos (l : List Char) (n : Nat) (h : matchNot l = some n) : 0 < n := by
  simp only [matchNot] at h
  split_ifs at h
  all_goals (try cases h); omega

theorem matchElse_pos (l : List Char) (n : Nat) (h : matchElse l = some n) : 0 < n := by
  simp only [matchElse] at h
  split_ifs at h
  all_goals (try cases h); omega

theorem matchImport_pos (l : List Char) (n : Nat) (h : matchImport l = some n) :
    0 < n := by
  simp only [matchImport] at h
  split_ifs at h
  all_goals (try cases h); omega

theorem matchIdentifier_pos (prev : Option Char) (l : List Char) (n : Nat)
    (h : matchIdentifier prev l = some n) : 0 < n := by
  rw [matchIdentifier.eq_def] at h
  split at h
  · split_ifs at h with h1 h2
    cases h
    exact wordRun_pos _ _ h1
  · cases h

theorem matchString_pos (l : List Char) (n : Nat) (h : matchString l = some n) :
    0 < n := by
  rw [matchString.eq_def] at h
  split at h
  · simp only [Option.map_eq_some'] at h
    obtain ⟨m, _, hm⟩ := h
    omega
  · cases h

theorem matchComment_pos (l : List Char) (n : Nat) (h : matchComment l = some n) :
    0 < n := by
  rw [matchComment.eq_def] at h
  split at h
  · cases h; omega
  · simp only [Option.map_eq_some'] at h
    obtain ⟨m, _, hm⟩ := h
    omega
  · cases h

theorem matchChar_pos (c : Char) (l : List Char) (n : Nat)
    (h : matchChar c l = some n) : 0 < n := by
  rw [matchChar.eq_def] at h
  repeat split at h
  all_goals cases h <;> omega

theorem matchYeet_pos (l : List Char) (n : Nat) (h : matchYeet l = some n) : 0 < n := by
  simp only [matchYeet] at h
  split_ifs at h
  all_goals (try cases h); omega

theorem matchArrow_pos (l : List Char) (n : Nat) (h : matchArrow l = some n) :
    0 < n := by
  rw [matchArrow.eq_def] at h
  split at h
  · cases h; omega
  · cases h

theorem matchBoolean_pos (l : List Char) (n : Nat) (h : matchBoolean l = some n) :
    0 < n := by
  simp only [matchBoolean] at h
  split_ifs at h
  all_goals (try cases h); omega

/-- Every rule's pattern consumes at least one character when it matches:
no rule can match the empty string.  (The source relies on this silently —
a zero-length match would loop its scan forever.) -/
theorem matchRule_pos (r : Rule) (prev : Option Char) (l : List Char) (n : Nat)
    (h : matchRule r prev l = some n) : 0 < n := by
  cases r
  case folderR => exact matchFolder_pos l n h
  case classR => exact matchClass_pos l n h
  case variableR => exact matchVariable_pos l n h
  case functionR => exact matchFunction_pos l n h
  case ifR => exact matchIf_pos l n h
  case notR => exact matchNot_pos l n h
  case elseR => exact matchElse_pos l n h
  case importR => exact matchImport_pos l n h
  case identifierR => exact matchIdentifier_pos prev l n h
  case stringR => exact matchString_pos l n h
  case commentR => exact matchComment_pos l n h
  case lparenR => exact matchChar_pos _ l n h
  case rparenR => exact matchChar_pos _ l n h
  case lbraceR => exact matchChar_pos _ l n h
  case rbraceR => exact matchChar_pos _ l n h
  case semicolonR => exact matchChar_pos _ l n h
  case dotR => exact matchChar_pos _ l n h
  case yeetR => exact matchYeet_pos l n h
  case arrowR => exact matchArrow_pos l n h
  case booleanR => exact matchBoolean_pos l n h

/-- A successful scan of the rule list consumed at least one character. -/
theorem firstMatchIn_pos (rules : List (String × Rule)) (prev : Option Char)
    (l : List Char) (kind : String) (n : Nat)
    (h : firstMatchIn rules prev l = some (kind, n)) : 0 < n := by
  induction rules with
  | nil => simp [firstMatchIn] at h
  | cons hd tl ih =>
    rcases hd with ⟨k, r⟩
    simp only [firstMatchIn] at h
    rcases hmr : matchRule r prev l with _ | m <;> rw [hmr] at h
    · exact ih h
    · rw [Option.some_inj, Prod.mk.injEq] at h
      obtain ⟨h1, h2⟩ := h
      subst h2
      exact matchRule_pos r prev l m hmr

/-- `firstTokenAt` only reports positive match lengths. -/
theorem firstTokenAt_pos (s : List Char) (pos : Nat) (kind : String) (n : Nat)
    (h : firstTokenAt s pos = some (kind, n)) : 0 < n :=
  firstMatchIn_pos _ _ _ _ _ h

/-- The scan loop of the source `lexer` (lines 42-58): starting from `pos`,
repeatedly take the first matching rule, reclassify keyword identifiers, drop
comment matches, and advance past the matched text; fail with the current
position if no rule matches.  The loop is driven by a fuel parameter so that
it is structurally recursive; since every successful match consumes at least
one character (`matchRule_pos`), a scan from position `pos` makes at most
`s.length - pos` steps, and the fuel the entry point supplies is never
exhausted.  (The fuel-exhaustion branch reports the current position, but no
run started from `lexer` can reach it.) -/
def lexFrom : Nat → List Char → Nat → Except Nat (List Token)
  | 0, _, pos => .error pos
  | fuel + 1, s, pos =>
    if pos < s.length then
      match firstTokenAt s pos with
      | none => .error pos
      | some (kind, n) =>
        match lexFrom fuel s (pos + n) with
        | .error e => .error e
        | .ok ts =>
          if reclassify kind (String.mk ((s.drop pos).take n)) = "COMMENT" then .ok ts
          else .ok ((reclassify kind (String.mk ((s.drop pos).take n)),
            String.mk ((s.drop pos).take n)) :: ts)
    else .ok []

/-- The source `lexer`: scan the whole input from position 0. -/
def lexer (text : String) : Except Nat (List Token) :=
  lexFrom (text.data.length + 1) text.data 0

/-! ## The parser

The nested helpers of the source `parse` become functions from the token list
and the current index to an `Except` of result and updated index.  Loops
(`parse_body`, the call-argument loop, the dotted-import loop, the top-level
loop) and the mutual recursion between statements, `if` and bodies are driven
by a fuel parameter; the entry point supplies more fuel than any input can
consume (every iteration and every nested call consumes at least one token),
so the out-of-fuel branch is an artifact of the embedding, never reached from
`parse`. -/

/-- The dynamic values Python stores in `Node.value`: nothing, a string, a
boolean, or the `(name, annotation, value)` tuple of a variable declaration. -/
inductive PyVal where
  | pyNone
  | pyStr (s : String)
  | pyBool (b : Bool)
  | pyTriple (name : String) (arrow : Option String) (value : PyVal)
deriving DecidableEq

/-- The source `Node` class: a type tag, a list of children and a value. -/
inductive Node where
  | mk (type : String) (children : List Node) (value : PyVal)

/-- The failures the source front end can raise: the lexer error with its
offset, the parser's expected-kind failure from `consume` (carrying the token
found, or nothing at end of input), the unexpected-token and unexpected-value
failures, and the dynamic `TypeError`s (`peek` called with an argument
although it accepts none, and `None` subscripted by a guard reading
`peek()[0]`). -/
inductive Err where
  | lexError (pos : Nat)
  | expected (kind : String) (found : Option Token)
  | unexpectedToken (t : Token)
  | unexpectedValue
  | typeError (site : String)
  | outOfFuel

/-- The source `peek` (lines 65-69): the current token, or `None` at the end.
It accepts no offset argument. -/
def peek (tokens : List Token) (index : Nat) : Option Token := tokens.get? index

/-- The source `consume` (lines 71-77): return the current token and advance
when its kind matches, otherwise fail with the expected kind and the token
found. -/
def consume (tokens : List Token) (index : Nat) (tokenType : String) :
    Except Err (Token × Nat) :=
  match peek tokens index with
  | some t =>
    if t.1 = tokenType then .ok (t, index + 1)
    else .error (.expected tokenType (some t))
  | none => .error (.expected tokenType none)

/-- The source `parse_value` (lines 183-192).  The `BOOLEAN` branch converts
the lexeme to a logical value by comparing it with `true` — and returns
without consuming the token, exactly as the source does. -/
def parseValue (tokens : List Token) (index : Nat) : Except Err (PyVal × Nat) :=
  match peek tokens index with
  | none => .error (.typeError "none-subscript")
  | some t =>
    if t.1 = "STRING" then
      (consume tokens index "STRING").map (fun p => (.pyStr p.1.2, p.2))
    else if t.1 = "BOOLEAN" then .ok (.pyBool (t.2 == "true"), index)
    else if t.1 = "IDENTIFIER" then
      (consume tokens index "IDENTIFIER").map (fun p => (.pyStr p.1.2, p.2))
    else .error .unexpectedValue

/-- The source `parse_variable` (lines 96-105).  The arrow guard reads
`peek()[0]`, which subscripts `None` when the input is exhausted. -/
def parseVariable (tokens : List Token) (index : Nat) : Except Err (Node × Nat) := do
  let (_, i1) ← consume tokens index "VARIABLE"
  let (nameTok, i2) ← consume tokens i1 "IDENTIFIER"
  match peek tokens i2 with
  | none => .error (.typeError "none-subscript")
  | some t => do
    let (arrow, i3) ←
      if t.1 = "ARROW" then do
        let (_, ia) ← consume tokens i2 "ARROW"
        let (arrTok, ib) ← consume tokens ia "IDENTIFIER"
        pure (some arrTok.2, ib)
      else pure ((none : Option String), i2)
    let (_, i4) ← consume tokens i3 "EQUALS"
    let (v, i5) ← parseValue tokens i4
    pure (Node.mk "VARIABLE" [] (.pyTriple nameTok.2 arrow v), i5)

/-- The source `parse_identifier` (lines 152-154). -/
def parseIdentifier (tokens : List Token) (index : Nat) : Except Err (Node × Nat) :=
  (consume tokens index "IDENTIFIER").map
    (fun p => (Node.mk "IDENTIFIER" [] (.pyStr p.1.2), p.2))

/-- The source `parse_string` (lines 156-158). -/
def parseStringNode (tokens : List Token) (index : Nat) : Except Err (Node × Nat) :=
  (consume tokens index "STRING").map
    (fun p => (Node.mk "STRING" [] (.pyStr p.1.2), p.2))

/-- The source `parse_expression` (lines 143-150): an identifier or a string
literal.  Reading `token[0]` subscripts `None` at end of input. -/
def parseExpression (tokens : List Token) (index : Nat) : Except Err (Node × Nat) :=
  match peek tokens index with
  | none => .error (.typeError "none-subscript")
  | some t =>
    if t.1 = "IDENTIFIER" then parseIdentifier tokens index
    else if t.1 = "STRING" then parseStringNode tokens index
    else .error (.unexpectedToken t)

/-- The argument loop of the source `parse_function_call` (lines 166-168):
while the current token is a semicolon, consume it and parse one more
argument expression.  The guard reads `peek()[0]`, which subscripts `None`
when the input is exhausted. -/
def parseArgsLoop : Nat → List Token → Nat → List Node → Except Err (List Node × Nat)
  | 0, _, _, _ => .error .outOfFuel
  | fuel + 1, tokens, index, args =>
    match peek tokens index with
    | none => .error (.typeError "none-subscript")
    | some t =>
      if t.1 = "SEMICOLON" then do
        let (_, i1) ← consume tokens index "SEMICOLON"
        let (arg, i2) ← parseExpression tokens i1
        parseArgsLoop fuel tokens i2 (args ++ [arg])
      else .ok (args, index)

/-- The source `parse_function_call` (lines 160-170): callee identifier,
parenthesised semicolon-separated argument expressions; the emptiness guard
reads `peek()[0]`, which subscripts `None` when the input is exhausted. -/
def parseFunctionCall (fuel : Nat) (tokens : List Token) (index : Nat) :
    Except Err (Node × Nat) := do
  let (idTok, i1) ← consume tokens index "IDENTIFIER"
  let (_, i2) ← consume tokens i1 "LPAREN"
  match peek tokens i2 with
  | none => .error (.typeError "none-subscript")
  | some t => do
    let (args, i3) ←
      if t.1 ≠ "RPAREN" then do
        let (a1, ia) ← parseExpression tokens i2
        parseArgsLoop fuel tokens ia [a1]
      else pure (([] : List Node), i2)
    let (_, i4) ← consume tokens i3 "RPAREN"
    pure (Node.mk "FUNCTION_CALL"
      (Node.mk "IDENTIFIER" [] (.pyStr idTok.2) :: args) .pyNone, i4)

/-- The source `parse_assignment` (lines 172-175): a full variable
declaration followed by a mandatory semicolon. -/
def parseAssignment (tokens : List Token) (index : Nat) : Except Err (Node × Nat) := do
  let (v, i1) ← parseVariable tokens index
  let (_, i2) ← consume tokens i1 "SEMICOLON"
  pure (Node.mk "ASSIGNMENT" [v] .pyNone, i2)

/-- The source `parse_yeet` (lines 177-181). -/
def parseYeet (tokens : List Token) (index : Nat) : Except Err (Node × Nat) := do
  let (_, i1) ← consume tokens index "YEET"
  let (errTok, i2) ← consume tokens i1 "STRING"
  let (_, i3) ← consume tokens i2 "SEMICOLON"
  pure (Node.mk "YEET" [] (.pyStr errTok.2), i3)

/-- The dotted-name loop of the source `parse_import` (lines 82-84): while
the current token is a dot, consume it and append a dot and the next
identifier's lexeme to the module name. -/
def importDots : Nat → List Token → Nat → String → Except Err (String × Nat)
  | 0, _, _, _ => .error .outOfFuel
  | fuel + 1, tokens, index, name =>
    match peek tokens index with
    | some t =>
      if t.1 = "DOT" then do
        let (_, i1) ← consume tokens index "DOT"
        let (idTok, i2) ← consume tokens i1 "IDENTIFIER"
        importDots fuel tokens i2 (name ++ "." ++ idTok.2)
      else .ok (name, index)
    | none => .ok (name, index)

/-- The source `parse_import` (lines 79-86). -/
def parseImport (fuel : Nat) (tokens : List Token) (index : Nat) :
    Except Err (Node × Nat) := do
  let (_, i1) ← consume tokens index "IMPORT"
  let (idTok, i2) ← consume tokens i1 "IDENTIFIER"
  let (name, i3) ← importDots fuel tokens i2 idTok.2
  let (_, i4) ← consume tokens i3 "SEMICOLON"
  pure (Node.mk "IMPORT" [] (.pyStr name), i4)

/-- The source `parse_folder` (lines 88-89): consume the folder token and
return nothing. -/
def parseFolder (tokens : List Token) (index : Nat) : Except Err (Unit × Nat) :=
  (consume tokens index "FOLDER").map (fun p => ((), p.2))

/-- The source `parse_class` (lines 91-94). -/
def parseClass (tokens : List Token) (index : Nat) : Except Err (Node × Nat) := do
  let (_, i1) ← consume tokens index "CLASS"
  let (idTok, i2) ← consume tokens i1 "IDENTIFIER"
  pure (Node.mk "CLASS" [] (.pyStr idTok.2), i2)

/-- The source `parse_function` (lines 107-110). -/
def parseFunction (tokens : List Token) (index : Nat) : Except Err (Node × Nat) := do
  let (_, i1) ← consume tokens index "FUNCTION"
  let (idTok, i2) ← consume tokens i1 "IDENTIFIER"
  pure (Node.mk "FUNCTION" [] (.pyStr idTok.2), i2)

mutual

/-- The source `parse_if` (lines 112-116). -/
def parseIf : Nat → List Token → Nat → Except Err (Node × Nat)
  | 0, _, _ => .error .outOfFuel
  | fuel + 1, tokens, index => do
    let (_, i1) ← consume tokens index "IF"
    let (cond, i2) ← parseExpression tokens i1
    let (body, i3) ← parseBody fuel tokens i2
    pure (Node.mk "IF" [cond, body] .pyNone, i3)
termination_by structural fuel => fuel

/-- The source `parse_body` (lines 118-125): a left brace, statements until
the next token is a right brace or the input is exhausted, then a mandatory
right brace. -/
def parseBody : Nat → List Token → Nat → Except Err (Node × Nat)
  | 0, _, _ => .error .outOfFuel
  | fuel + 1, tokens, index => do
    let (_, i1) ← consume tokens index "LBRACE"
    let (stmts, i2) ← parseBodyLoop fuel tokens i1 []
    let (_, i3) ← consume tokens i2 "RBRACE"
    pure (Node.mk "BODY" stmts .pyNone, i3)
termination_by structural fuel => fuel

/-- The statement loop of `parse_body` (lines 121-123): while a token
remains and it is not a right brace, parse one statement and append it. -/
def parseBodyLoop : Nat → List Token → Nat → List Node → Except Err (List Node × Nat)
  | 0, _, _, _ => .error .outOfFuel
  | fuel + 1, tokens, index, stmts =>
    match peek tokens index with
    | some t =>
      if t.1 ≠ "RBRACE" then do
        let (st, i1) ← parseStatement fuel tokens index
        parseBodyLoop fuel tokens i1 (stmts ++ [st])
      else .ok (stmts, index)
    | none => .ok (stmts, index)
termination_by structural fuel => fuel

/-- The source `parse_statement` (lines 127-141).  Reading `token[0]`
subscripts `None` at end of input.  In the identifier branch the source
calls `peek(1)` to look one token ahead, but `peek` accepts no argument: at
run time this raises `TypeError` before either the call or the assignment
branch can be reached. -/
def parseStatement : Nat → List Token → Nat → Except Err (Node × Nat)
  | 0, _, _ => .error .outOfFuel
  | fuel + 1, tokens, index =>
    match peek tokens index with
    | none => .error (.typeError "none-subscript")
    | some t =>
      if t.1 = "IF" then parseIf fuel tokens index
      else if t.1 = "IDENTIFIER" then .error (.typeError "peek-arity")
      else if t.1 = "YEET" then parseYeet tokens index
      else if t.1 = "IMPORT" then parseImport fuel tokens index
      else .error (.unexpectedToken t)
termination_by structural fuel => fuel

end

/-- The top-level loop of the source `parse` (lines 194-212): while tokens
remain, dispatch on the current token's kind; folder declarations produce no
node, a comment token is skipped (a dead branch, since the lexer drops
comments), and any other kind is an unexpected-token failure. -/
def parseProgram : Nat → List Token → Nat → Except Err (List Node)
  | 0, _, _ => .error .outOfFuel
  | fuel + 1, tokens, index =>
    match peek tokens index with
    | none => .ok []
    | some t =>
      if t.1 = "FOLDER" then do
        let (_, i1) ← parseFolder tokens index
        parseProgram fuel tokens i1
      else if t.1 = "CLASS" then do
        let (node, i1) ← parseClass tokens index
        let rest ← parseProgram fuel tokens i1
        pure (node :: rest)
      else if t.1 = "VARIABLE" then do
        let (node, i1) ← parseVariable tokens index
        let rest ← parseProgram fuel tokens i1
        pure (node :: rest)
      else if t.1 = "FUNCTION" then do
        let (node, i1) ← parseFunction tokens index
        let rest ← parseProgram fuel tokens i1
        pure (node :: rest)
      else if t.1 = "IF" then do
        let (node, i1) ← parseIf fuel tokens index
        let rest ← parseProgram fuel tokens i1
        pure (node :: rest)
      else if t.1 = "COMMENT" then parseProgram fuel tokens (index + 1)
      else if t.1 = "IMPORT" then do
        let (node, i1) ← parseImport fuel tokens index
        let rest ← parseProgram fuel tokens i1
        pure (node :: rest)
      else .error (.unexpectedToken t)

/-- The source `parse`: run the top-level loop from index 0.  The fuel bound
exceeds what any run can consume, since every loop iteration and nested call
advances the index. -/
def parse (tokens : List Token) : Except Err (List Node) :=
  parseProgram (2 * tokens.length + 8) tokens 0

/-- The front end of `compile_file` (lines 216-222): tokenize, then parse. -/
def frontEnd (text : String) : Except Err (List Node) :=
  match lexer text with
  | .error pos => .error (.lexError pos)
  | .ok ts => parse ts

/-! ## Theorems -/

/-- No rule of `TOKEN_TYPES` matches at a whitespace character: every
pattern requires its first consumed character to be a quote, a slash, a
punctuation character, an arrow dash, or a letter starting a keyword or an
identifier. -/
theorem firstMatchIn_ws (c : Char) (hc : isWsChar c = true) (prev : Option Char)
    (rest : List Char) : firstMatchIn TOKEN_TYPES prev (c :: rest) = none := by
  simp only [isWsChar, Bool.or_eq_true, decide_eq_true_eq] at hc
  rcases hc with ((((h | h) | h) | h) | h) | h <;> subst h <;> rfl

/-- A token list the lexer accepts contains no `COMMENT` token: comment
matches are dropped before they are appended. -/
theorem lexFrom_ok_comment_free :
    ∀ (fuel : Nat) (s : List Char) (pos : Nat) (ts : List Token),
      lexFrom fuel s pos = .ok ts → ∀ t ∈ ts, t.1 ≠ "COMMENT" := by
  intro fuel
  induction fuel with
  | zero => intro s pos ts hlex; cases hlex
  | succ fuel ih =>
    intro s pos ts hlex t ht
    simp only [lexFrom] at hlex
    by_cases hp : pos < s.length
    · rw [if_pos hp] at hlex
      rcases hfa : firstTokenAt s pos with _ | ⟨kind, n⟩
      · simp only [hfa] at hlex; cases hlex
      · simp only [hfa] at hlex
        rcases hrec : lexFrom fuel s (pos + n) with e | ts1
        · simp only [hrec] at hlex; cases hlex
        · simp only [hrec] at hlex
          by_cases hcm :
              reclassify kind (String.mk ((s.drop pos).take n)) = "COMMENT"
          · rw [if_pos hcm] at hlex
            cases hlex
            exact ih s (pos + n) _ hrec t ht
          · rw [if_neg hcm] at hlex
            cases hlex
            rcases List.mem_cons.mp ht with h1 | h1
            · subst h1; exact hcm
            · exact ih s (pos + n) _ hrec t h1
    · rw [if_neg hp] at hlex
      cases hlex
      simp at ht

/-- Auxiliary for claim C8: scanning an ordered rule list returns the first
rule that matches, whenever every earlier rule fails. -/
theorem firstMatchIn_first :
    ∀ (rules : List (String × Rule)) (prev : Option Char) (l : List Char)
      (i : Nat) (kind : String) (r : Rule) (n : Nat),
      rules.get? i = some (kind, r) → matchRule r prev l = some n →
      (∀ j, j < i → ((rules.get? j).bind fun p => matchRule p.2 prev l) = none) →
      firstMatchIn rules prev l = some (kind, n) := by
  intro rules
  induction rules with
  | nil => intro prev l i kind r n h1; cases h1
  | cons hd tl ih =>
    intro prev l i kind r n h1 h2 h3
    rcases hd with ⟨k0, r0⟩
    cases i with
    | zero =>
      simp only [List.get?_cons_zero, Option.some.injEq, Prod.mk.injEq] at h1
      obtain ⟨hk, hr⟩ := h1
      subst hk
      subst hr
      simp only [firstMatchIn]
      rw [h2]
    | succ i =>
      have h0 := h3 0 (Nat.succ_pos i)
      simp only [List.get?_cons_zero, Option.some_bind] at h0
      simp only [List.get?_cons_succ] at h1
      simp only [firstMatchIn]
      rw [h0]
      exact ih prev l i kind r n h1 h2 (by
        intro j hj
        have := h3 (j + 1) (by omega)
        simpa only [List.get?_cons_succ] using this)

/-- Claim C1.  Both declaration paths named by the claim fail on the code.
Top level: the lexer turns `variable x = y` into the single composite token
`("VARIABLE", "variable x = y")`, so `parse_variable`'s subsequent
`consume('IDENTIFIER')` meets the end of input and the front end fails
(moreover no lexer rule ever emits the `EQUALS` kind that `parse_variable`
requires next).  Statement level: for any identifier-led statement,
`parse_statement` calls `peek(1)` although `peek` accepts no argument, a
`TypeError`, so the assignment branch is unreachable. -/
theorem claim1_variable_paths_fail :
    frontEnd "variable x = y" = .error (.expected "IDENTIFIER" none) ∧
    parseStatement 5 [("IDENTIFIER", "x")] 0 = .error (.typeError "peek-arity") :=
  ⟨rfl, rfl⟩

/-- Claim C2.  `peek` takes no offset argument, so the `peek(1)` lookahead
that `parse_statement` attempts raises `TypeError`: the front end on
an `if` whose body statement starts with an identifier dies with the
arity error instead of dispatching between call and assignment. -/
theorem claim2_peek_has_no_offset :
    frontEnd "if\"c\"\x7bx" = .error (.typeError "peek-arity") := rfl

/-- Claim C3: no tokenizer rule matches at a whitespace character, so
whenever the scan cursor sits on a whitespace character the lexer fails
right there, with a lexical error carrying that position, instead of
producing a token sequence. -/
theorem claim3_whitespace_lex_error (fuel : Nat) (s : List Char) (pos : Nat)
    (h : pos < s.length) (hw : isWsChar s[pos] = true) :
    firstTokenAt s pos = none ∧ lexFrom (fuel + 1) s pos = .error pos := by
  have hnone : firstTokenAt s pos = none := by
    unfold firstTokenAt
    rw [List.drop_eq_getElem_cons h]
    exact firstMatchIn_ws s[pos] hw _ _
  refine ⟨hnone, ?_⟩
  simp only [lexFrom]
  rw [if_pos h, hnone]

/-- Witness for claim C3 at the space of `if x` (position 2). -/
theorem claim3_witness :
    firstTokenAt "if x".data 2 = none ∧ lexFrom 3 "if x".data 2 = .error 2 :=
  claim3_whitespace_lex_error 2 "if x".data 2 (by decide) (by decide)

/-- Claim C4.  The statement `say("hi"; "there")` does not even tokenize:
the space at offset 9 (after the semicolon) matches no rule, so the front
end fails with a lexical error and no `FunctionCall` node is produced.
(Even with the space removed, `parse_statement` would die in the `peek(1)`
arity `TypeError` before reaching the call branch, see C2.) -/
theorem claim4_say_statement_fails :
    frontEnd "say(\"hi\"; \"there\")" = .error (.lexError 9) := rfl

/-- Counterexample to claim C5 as stated: the input
`variable x = "a"; // note\n` yields no token sequence at all — the lexer
fails at offset 17, the space before the comment. -/
theorem claim5_counterexample :
    lexer "variable x = \"a\"; // note\n" = .error 17 := rfl

/-- Claim C5 (amended): the input with the comment and the input without it
produce the same lexer result — both fail with the lexical error at offset
17 — and in general a comment match is discarded before being appended, so
`COMMENT` tokens never appear in a successful lexer result. -/
theorem claim5_comment_elision :
    lexer "variable x = \"a\"; // note\n" = lexer "variable x = \"a\"; \n" ∧
    lexer "variable x = \"a\"; \n" = .error 17 ∧
    (∀ (text : String) (ts : List Token), lexer text = .ok ts →
      ∀ t ∈ ts, t.1 ≠ "COMMENT") := by
  refine ⟨rfl, rfl, ?_⟩
  intro text ts h
  exact lexFrom_ok_comment_free (text.data.length + 1) text.data 0 ts h

/-- Witness for claim C5: the lexer accepts `;//x` as a single semicolon
token, and that token is not a comment token. -/
theorem claim5_witness : ("SEMICOLON", ";").1 ≠ "COMMENT" :=
  claim5_comment_elision.2.2 ";//x" [("SEMICOLON", ";")] rfl ("SEMICOLON", ";")
    (List.mem_singleton.mpr rfl)

/-- Counterexample to claim C6 as stated: the unterminated-body input of
the claim (`if x`, a space, an opening brace, a space) fails with a
lexical error at offset 2 (the first space), not with a parse error — the
parser is never reached. -/
theorem claim6_counterexample :
    frontEnd "if x \x7b " = .error (.lexError 2) := rfl

/-- Claim C6 (amended): when the token sequence is exhausted inside a body
before a closing right brace, parsing fails with a parse error (expected
`RBRACE`, found end of input) rather than returning an incomplete tree; the
literal unterminated-body input fails too, but already at tokenization, because the
lexer rejects its first space. -/
theorem claim6_unterminated_body :
    parse [("IF", "if"), ("IDENTIFIER", "x"), ("LBRACE", "\x7b")] =
      .error (.expected "RBRACE" none) := rfl

/-- Claim C7: if no rule matches at the cursor, tokenization fails with a
lexical error carrying exactly the cursor position; on `say@` the unmatched
`@` sits at index 3 and the lexer reports offset 3. -/
theorem claim7_lex_error_offset :
    (∀ (fuel : Nat) (s : List Char) (pos : Nat), pos < s.length →
      firstTokenAt s pos = none → lexFrom (fuel + 1) s pos = .error pos) ∧
    lexer "say@" = .error 3 := by
  constructor
  · intro fuel s pos hp hn
    simp only [lexFrom, hn, if_pos hp]
  · rfl

/-- Witness for claim C7 at the unmatched `@` of the input `@`. -/
theorem claim7_witness : lexFrom 2 "@".data 0 = .error 0 :=
  claim7_lex_error_offset.1 1 "@".data 0 (by decide) (by decide)

/-- Claim C8: the tokenizer accepts the first rule, in declaration order,
whose pattern matches at the cursor — whenever rule `i` matches and every
earlier rule fails, the scan returns rule `i`'s kind and match length — and
consequently `importer` tokenizes as a single `Identifier` token (the
composite import pattern fails on it, the identifier rule matches the whole
word), not as an `Import` token. -/
theorem claim8_first_rule_wins :
    (∀ (s : List Char) (pos i : Nat) (kind : String) (r : Rule) (n : Nat),
      TOKEN_TYPES.get? i = some (kind, r) →
      matchRule r (prevOf s pos) (s.drop pos) = some n →
      (∀ j, j < i → ((TOKEN_TYPES.get? j).bind
        fun p => matchRule p.2 (prevOf s pos) (s.drop pos)) = none) →
      firstTokenAt s pos = some (kind, n)) ∧
    lexer "importer" = .ok [("IDENTIFIER", "importer")] := by
  constructor
  · intro s pos i kind r n h1 h2 h3
    exact firstMatchIn_first TOKEN_TYPES (prevOf s pos) (s.drop pos) i kind r n h1 h2 h3
  · rfl

/-- Witness for claim C8: on `if`, the `IF` rule (index 4) matches with
length 2 and all four earlier rules fail, so the scan reports it. -/
theorem claim8_witness : firstTokenAt "if".data 0 = some ("IF", 2) :=
  claim8_first_rule_wins.1 "if".data 0 4 "IF" .ifR 2 (by decide) (by decide)
    (by decide)

/-- Counterexample to claim C9 as stated: the lexer classifies a bare `true`
as an `IDENTIFIER` token (the identifier rule precedes the boolean rule),
and on such a token the parser's value grammar returns the string `true` —
an unresolved reference — not a logical value. -/
theorem claim9_counterexample :
    lexer "true" = .ok [("IDENTIFIER", "true")] ∧
    parseValue [("IDENTIFIER", "true")] 0 = .ok (.pyStr "true", 1) :=
  ⟨rfl, rfl⟩

/-- Claim C9 (amended): only a token already carrying the `BOOLEAN` kind —
which the lexer never produces for a bare `true`/`false`, see the
counterexample — is converted by the value grammar to a logical value
(`true` to logical true, `false` to logical false), without advancing past
the token; `parse_variable` then stores that logical value in the
declaration payload. -/
theorem claim9_boolean_value :
    parseValue [("BOOLEAN", "true")] 0 = .ok (.pyBool true, 0) ∧
    parseValue [("BOOLEAN", "false")] 0 = .ok (.pyBool false, 0) ∧
    parseVariable [("VARIABLE", "variable"), ("IDENTIFIER", "x"), ("EQUALS", "="),
        ("BOOLEAN", "true")] 0 =
      .ok (Node.mk "VARIABLE" [] (.pyTriple "x" none (.pyBool true)), 3) :=
  ⟨rfl, rfl, rfl⟩

/-- Claim C10: the lexer and the parser are functions of their input — two
runs on the same text or the same token list give the same result, whether
success or failure. -/
theorem claim10_deterministic (text : String) (tokens : List Token)
    (r₁ r₂ : Except Nat (List Token)) (p₁ p₂ : Except Err (List Node))
    (h₁ : lexer text = r₁) (h₂ : lexer text = r₂)
    (h₃ : parse tokens = p₁) (h₄ : parse tokens = p₂) :
    r₁ = r₂ ∧ p₁ = p₂ :=
  ⟨h₁.symm.trans h₂, h₃.symm.trans h₄⟩

/-- Witness for claim C10 on the input `x` and the empty token list. -/
theorem claim10_witness : lexer "x" = lexer "x" ∧ parse [] = parse [] :=
  claim10_deterministic "x" [] (lexer "x") (lexer "x") (parse []) (parse [])
    rfl rfl rfl rfl

end WobbleScript
